import Mathlib

/-!
Shallow embedding of the Telegram lending-bot core (src/bot.js and the
webhook variant src/unnamed/part_000): the sign-in wizard scene, the
auth/role helpers, the role-gated routing of commands and callback
buttons, and the loan-id reply parsing.  JavaScript strings are embedded
as lists of characters; external collaborators (bcrypt, the SQL pools)
are parameters of the step functions; machine-visible side effects
(replies, the delete-message attempt, store calls) are recorded in the
result records.
-/

set_option maxRecDepth 10000

namespace TelegramBot

/-- JavaScript strings, embedded as lists of characters. -/
abbrev JStr := List Char

/-- `String.prototype.toLowerCase` (ASCII range, which covers every
string the bot compares: commands, role names, emails). -/
def jsLower (s : JStr) : JStr := s.map Char.toLower

/-- `String.prototype.trim`: strip whitespace from both ends. -/
def jsTrim (s : JStr) : JStr :=
  ((s.dropWhile Char.isWhitespace).reverse.dropWhile Char.isWhitespace).reverse

/-- Result of a credential-store (SQL) lookup: a row, no row, or a thrown
error from the driver. -/
inductive Lookup (α : Type) where
  | found (a : α)
  | notFound
  | fault
deriving DecidableEq, Repr

/-- Row returned by `SELECT user_id, password, role FROM users WHERE email = ?`
(src/bot.js line 111). -/
structure Cred where
  userId : Nat
  password : JStr
  role : JStr
deriving DecidableEq, Repr

/-- Row returned by the linked-entity lookups on `customers` / `lenders`
(`customer_id`/`lender_id` plus `name`). -/
structure LinkedRec where
  id : Nat
  name : JStr
deriving DecidableEq, Repr

/-- The transient `ctx.session.signInData` scratch record filled by the
email step of the wizard (src/bot.js lines 124-129). -/
structure SignInData where
  email : JStr
  userId : Nat
  hashedPassword : JStr
  role : JStr
deriving DecidableEq, Repr

/-- The per-conversation `ctx.session` object.  An absent JS session is
embedded as the record with every field `none`. -/
structure Session where
  userId : Option Nat
  role : Option JStr
  customerId : Option Nat
  lenderId : Option Nat
  customerName : Option JStr
  signInData : Option SignInData
deriving DecidableEq, Repr

/-- The session of a fresh conversation (no field set). -/
def emptySession : Session :=
  ⟨none, none, none, none, none, none⟩

/-- Wizard cursor of the sign-in scene: not in the scene, waiting for the
email (step 1), or waiting for the password (step 2). -/
inductive WizState where
  | idle
  | awaitEmail
  | awaitPassword
deriving DecidableEq, Repr

/-- `hashedPassword?.startsWith('$2')` (src/bot.js line 118). -/
def hasHashTag (h : JStr) : Bool :=
  match h with
  | '$' :: '2' :: _ => true
  | _ => false

/-- `hashedPassword.replace(/^\$2y\$/, '$2b$')` (src/bot.js line 161):
an anchored replace of a leading `$2y$` algorithm tag by `$2b$`. -/
def normalizeHash (h : JStr) : JStr :=
  if h.take 4 = "$2y$".data then "$2b$".data ++ h.drop 4 else h

/-- `bcrypt.compare(password, safeHash)` as performed by the password
step: the stored hash is tag-normalized before the external compare
`cmp` runs on it. -/
def verifyPassword (cmp : JStr → JStr → Bool) (pw hash : JStr) : Bool :=
  cmp pw (normalizeHash hash)

/-- Result of running step 1 (the email step) of the sign-in wizard:
the wizard cursor afterwards, the session afterwards, and the replies
sent, in order. -/
structure Step1Res where
  state : WizState
  session : Session
  replies : List String
deriving DecidableEq, Repr

/-- Step 1 of `signInScene` (src/bot.js lines 94-138): the email step.
`byEmail` embeds the `users`-by-email query; `msg` is the inbound
message text (`none` when the update carries no text). -/
def signInStep1 (byEmail : JStr → Lookup Cred) (msg : Option JStr)
    (sess : Session) : Step1Res :=
  match msg with
  | none => ⟨.awaitEmail, sess, ["Please enter your email:"]⟩
  | some t =>
    if jsLower t = "/stop".data then
      ⟨.idle, { sess with signInData := none }, ["Process cancelled."]⟩
    else
      let email := jsTrim t
      if email = [] ∨ jsLower email = "/signin".data then
        ⟨.awaitEmail, sess, ["Please enter your email:"]⟩
      else if '@' ∉ email ∨ '.' ∉ email then
        ⟨.awaitEmail, sess, ["Invalid email format. Please try again:"]⟩
      else
        match byEmail email with
        | .notFound => ⟨.idle, sess, ["Email not found. Contact support."]⟩
        | .fault => ⟨.idle, sess, ["System error. Try again later."]⟩
        | .found cred =>
          if hasHashTag cred.password then
            ⟨.awaitPassword,
             { sess with
                signInData := some ⟨email, cred.userId, cred.password, jsLower cred.role⟩ },
             ["Please enter your password:"]⟩
          else ⟨.idle, sess, ["System error. Contact support."]⟩

/-- Result of running step 2 (the password step): cursor, session,
replies, whether a password-hash comparison was attempted, whether the
delete-message side effect was attempted, and whether the privacy
warning was sent. -/
structure Step2Res where
  state : WizState
  session : Session
  replies : List String
  compared : Bool
  delAttempted : Bool
  warned : Bool
deriving DecidableEq, Repr

/-- The privacy warning sent about the password message. -/
def privacyWarning : String :=
  "⚠️ For your privacy, please delete your password message from the chat history."

/-- Shared tail of the password step, from the role dispatch that
resolves the linked entity to the welcome reply (src/bot.js lines
173-243 and src/unnamed/part_000 lines 188-271).  `admin?` is `none`
for the bot.js variant (which sets the name to `'Admin'` directly) and
`some adminById` for the webhook variant (which looks the admin's
`user_name` up and can therefore miss or fault).  The welcome reply is
modelled as the fixed text `"Welcome back!"`, eliding only the
MarkdownV2 interpolation of the user's name. -/
def finishSignIn (customerById lenderById : Nat → Lookup LinkedRec)
    (admin? : Option (Nat → Lookup JStr)) (sd : SignInData) (sess : Session) :
    WizState × Session × List String :=
  if sd.role = "customer".data then
    match customerById sd.userId with
    | .fault => (.idle, sess, ["System error. Try again later."])
    | .notFound =>
      (.idle, { sess with signInData := none }, ["Account not found. Contact support."])
    | .found rec =>
      (.idle,
       ⟨some sd.userId, some (jsLower sd.role), some rec.id, none, some rec.name, none⟩,
       ["Welcome back!"])
  else if sd.role = "lender".data then
    match lenderById sd.userId with
    | .fault => (.idle, sess, ["System error. Try again later."])
    | .notFound =>
      (.idle, { sess with signInData := none }, ["Account not found. Contact support."])
    | .found rec =>
      (.idle,
       ⟨some sd.userId, some (jsLower sd.role), none, some rec.id, some rec.name, none⟩,
       ["Welcome back!"])
  else if sd.role = "admin".data then
    match admin? with
    | none =>
      (.idle,
       ⟨some sd.userId, some (jsLower sd.role), none, none, some "Admin".data, none⟩,
       ["Welcome back!"])
    | some adminById =>
      match adminById sd.userId with
      | .fault => (.idle, sess, ["System error. Try again later."])
      | .notFound =>
        (.idle, { sess with signInData := none },
         ["Admin account not found. Contact support."])
      | .found nm =>
        (.idle,
         ⟨some sd.userId, some (jsLower sd.role), none, none, some nm, none⟩,
         ["Welcome back!"])
  else
    (.idle, { sess with signInData := none }, ["Invalid user role. Contact support."])

/-- Step 2 of `signInScene` in src/bot.js (lines 140-249): the password
step of the polling/MySQL variant.  No delete-message attempt is made;
the privacy warning is sent unconditionally once the compare returned.
The `catch` block (lines 244-248) leaves the scene without touching
`signInData`. -/
def signInStep2Bot (bcrypt : JStr → JStr → Except Unit Bool)
    (customerById lenderById : Nat → Lookup LinkedRec)
    (msg : Option JStr) (sess : Session) : Step2Res :=
  match msg with
  | none =>
    ⟨.awaitPassword, sess, ["Invalid input. Please enter your password:"],
     false, false, false⟩
  | some t =>
    if jsLower t = "/stop".data then
      ⟨.idle, { sess with signInData := none }, ["Process cancelled."],
       false, false, false⟩
    else
      let password := jsTrim t
      match sess.signInData with
      | none =>
        ⟨.idle, sess, ["Session expired. Please start over."], false, false, false⟩
      | some sd =>
        -- JS truthiness: `!userId || !hashedPassword` also fires on a
        -- zero id or an empty hash string.
        if sd.userId = 0 ∨ sd.hashedPassword = [] then
          ⟨.idle, sess, ["Session expired. Please start over."], false, false, false⟩
        else
          match bcrypt password (normalizeHash sd.hashedPassword) with
          | .error _ =>
            -- the catch block: scene left, signInData NOT cleared
            ⟨.idle, sess, ["System error. Try again later."], true, false, false⟩
          | .ok isValid =>
            if isValid = false then
              ⟨.idle, { sess with signInData := none },
               [privacyWarning, "Invalid password. Use /signin to try again."],
               true, false, true⟩
            else
              match finishSignIn customerById lenderById none sd sess with
              | (st, s, rs) => ⟨st, s, privacyWarning :: rs, true, false, true⟩

/-- Step 2 of `signInScene` in src/unnamed/part_000 (lines 145-278): the
webhook/PostgreSQL variant.  It first attempts to delete the password
message (`delPerm` says whether the transport permits that) and warns
only when the attempt fails; its expired-session path clears
`signInData`; its admin path looks up `user_name`.  Its `catch` block
(lines 272-277) also leaves `signInData` untouched. -/
def signInStep2Web (delPerm : Bool) (bcrypt : JStr → JStr → Except Unit Bool)
    (customerById lenderById : Nat → Lookup LinkedRec)
    (adminById : Nat → Lookup JStr)
    (msg : Option JStr) (sess : Session) : Step2Res :=
  match msg with
  | none =>
    ⟨.awaitPassword, sess, ["Invalid input. Please enter your password:"],
     false, false, false⟩
  | some t =>
    if jsLower t = "/stop".data then
      ⟨.idle, { sess with signInData := none }, ["Process cancelled."],
       false, false, false⟩
    else
      let password := jsTrim t
      let warnReplies : List String := if delPerm then [] else [privacyWarning]
      let warned := !delPerm
      match sess.signInData with
      | none =>
        ⟨.idle, sess, warnReplies ++ ["Session expired. Please start over."],
         false, true, warned⟩
      | some sd =>
        if sd.userId = 0 ∨ sd.hashedPassword = [] then
          ⟨.idle, { sess with signInData := none },
           warnReplies ++ ["Session expired. Please start over."], false, true, warned⟩
        else
          match bcrypt password (normalizeHash sd.hashedPassword) with
          | .error _ =>
            ⟨.idle, sess, warnReplies ++ ["System error. Try again later."],
             true, true, warned⟩
          | .ok isValid =>
            if isValid = false then
              ⟨.idle, { sess with signInData := none },
               warnReplies ++ ["Invalid password. Use /signin to try again."],
               true, true, warned⟩
            else
              match finishSignIn customerById lenderById (some adminById) sd sess with
              | (st, s, rs) => ⟨st, s, warnReplies ++ rs, true, true, warned⟩

/-- Whether the cached session role passes a JS truthiness test
(`!ctx.session.role` is also true for the empty string). -/
def roleCached (sess : Session) : Bool :=
  match sess.role with
  | none => false
  | some r => !(r = [] : Bool)

/-- Result of `checkAuth`: its boolean, the session afterwards (the role
may have been cached onto it), how many credential-store lookups ran,
and the replies sent. -/
structure AuthRes where
  ok : Bool
  session : Session
  calls : Nat
  replies : List String
deriving DecidableEq, Repr

/-- `checkAuth(ctx)` (src/bot.js lines 54-68): reject when no `userId`;
lazily resolve and cache the case-folded role on first need, one
lookup; reject when the account vanished. -/
def checkAuth (roleById : Nat → Option JStr) (sess : Session) : AuthRes :=
  match sess.userId with
  | none =>
    ⟨false, sess, 0, ["You are not signed in. Use /signin to link your account."]⟩
  | some uid =>
    if roleCached sess then ⟨true, sess, 0, []⟩
    else
      match roleById uid with
      | none => ⟨false, sess, 1, ["User account not found. Please contact support."]⟩
      | some r => ⟨true, { sess with role := some (jsLower r) }, 1, []⟩

/-- `restrictRole(ctx, allowedRoles)` (src/bot.js lines 71-77): the
cached role must be truthy and a member of the permitted list. -/
def restrictRole (sess : Session) (allowedRoles : List JStr) : Bool :=
  match sess.role with
  | none => false
  | some r => !(r = [] : Bool) && allowedRoles.contains r

/-- The nine named actions reachable from the command menu and the
inline keyboard. -/
inductive Action where
  | checkloan
  | balance
  | loans
  | activeLoans
  | loanHistory
  | paymentTracking
  | listUsers
  | viewLogs
  | help
deriving DecidableEq, Repr

/-- The `actionRoles` permitted-role table of the callback handler
(src/bot.js lines 651-661). -/
def actionRoles : Action → List JStr
  | .checkloan => ["customer".data]
  | .balance => ["customer".data]
  | .loans => ["customer".data]
  | .activeLoans => ["lender".data]
  | .loanHistory => ["lender".data]
  | .paymentTracking => ["lender".data]
  | .listUsers => ["admin".data]
  | .viewLogs => ["admin".data]
  | .help => ["customer".data, "lender".data, "admin".data]

/-- The literal `restrictRole` argument of each command handler
(src/bot.js lines 297, 304, 340, 373, 426, 459, 466, 473).  The `/help`
command (lines 269-286) performs no `checkAuth` and no `restrictRole`
at all, hence `none`. -/
def cmdAllowedRoles : Action → Option (List JStr)
  | .checkloan => some ["customer".data]
  | .balance => some ["customer".data]
  | .loans => some ["customer".data]
  | .activeLoans => some ["lender".data]
  | .loanHistory => some ["lender".data]
  | .paymentTracking => some ["lender".data]
  | .listUsers => some ["admin".data]
  | .viewLogs => some ["admin".data]
  | .help => none

/-- The three router outcomes of the spec's contract. -/
inductive Outcome where
  | unauthenticated
  | unauthorized
  | dispatch
deriving DecidableEq, Repr

/-- Result of routing a named action: the outcome, the session
afterwards, credential-store lookups performed, and Domain Query
Service calls performed. -/
structure RouteRes where
  outcome : Outcome
  session : Session
  credCalls : Nat
  domainCalls : Nat
deriving DecidableEq, Repr

/-- The command entry surface: each gated command runs
`checkAuth` then `restrictRole` and only then its handler, which
performs `handlerDomainCalls a` Domain Query Service calls; `/help`
replies immediately with no gate and no query. -/
def routeCommand (roleById : Nat → Option JStr) (handlerDomainCalls : Action → Nat)
    (a : Action) (sess : Session) : RouteRes :=
  match cmdAllowedRoles a with
  | none => ⟨.dispatch, sess, 0, 0⟩
  | some allowed =>
    let ar := checkAuth roleById sess
    if ar.ok = false then ⟨.unauthenticated, ar.session, ar.calls, 0⟩
    else if restrictRole ar.session allowed = false then
      ⟨.unauthorized, ar.session, ar.calls, 0⟩
    else ⟨.dispatch, ar.session, ar.calls, handlerDomainCalls a⟩

/-- The button-press entry surface (src/bot.js lines 641-666): reject
when no `userId` is in the session, then check the cached role against
the `actionRoles` table; no lazy role resolution happens here. -/
def routeCallback (a : Action) (sess : Session) : Outcome :=
  if sess.userId = none then .unauthenticated
  else if restrictRole sess (actionRoles a) = false then .unauthorized
  else .dispatch

/-- The button-press surface with its side effects: the authorized
branch of the callback handler performs that action's
`handlerDomainCalls` Domain Query Service calls, the reject branches
only answer the callback query. -/
def routeCallbackRes (handlerDomainCalls : Action → Nat) (a : Action)
    (sess : Session) : RouteRes :=
  if sess.userId = none then ⟨.unauthenticated, sess, 0, 0⟩
  else if restrictRole sess (actionRoles a) = false then ⟨.unauthorized, sess, 0, 0⟩
  else ⟨.dispatch, sess, 0, handlerDomainCalls a⟩

/-- Cursor of the sign-in scene while it is active: which wizard step
will consume the next message. -/
inductive SceneCursor where
  | emailStep
  | passwordStep
deriving DecidableEq, Repr

/-- Conversation state seen by an inbound message: the active scene (if
any) with its cursor, plus the session. -/
structure ChatState where
  scene : Option SceneCursor
  sess : Session
deriving DecidableEq, Repr

/-- The `/stop` command handler (src/bot.js lines 805-811): leave any
active scene, delete `signInData`, reply `Operation cancelled.`. -/
def stopCmd (st : ChatState) : ChatState × String :=
  (⟨none, { st.sess with signInData := none }⟩, "Operation cancelled.")

/-- Scene cursor left behind by a wizard step's next state. -/
def cursorOf : WizState → Option SceneCursor
  | .idle => none
  | .awaitEmail => some .emailStep
  | .awaitPassword => some .passwordStep

/-- How the middleware chain routes an inbound `/stop` text message:
the stage middleware (src/bot.js line 254) hands every update of a
conversation with an active scene to that scene's current step handler,
so a mid-wizard `/stop` is consumed by the step (which replies
`Process cancelled.`) and `bot.command('stop')` never runs; only when
no scene is active does the update fall through to the stop-command
handler. -/
def dispatchStop (byEmail : JStr → Lookup Cred)
    (bc : JStr → JStr → Except Unit Bool) (cust lend : Nat → Lookup LinkedRec)
    (st : ChatState) : ChatState × List String :=
  match st.scene with
  | some SceneCursor.emailStep =>
    let r := signInStep1 byEmail (some "/stop".data) st.sess
    (⟨cursorOf r.state, r.session⟩, r.replies)
  | some SceneCursor.passwordStep =>
    let r := signInStep2Bot bc cust lend (some "/stop".data) st.sess
    (⟨cursorOf r.state, r.session⟩, r.replies)
  | none =>
    let r := stopCmd st
    (r.1, [r.2])

/-- Value of a decimal or hexadecimal digit character. -/
def digitVal (c : Char) : Nat :=
  if c.isDigit then c.toNat - '0'.toNat
  else if 'a' ≤ c ∧ c ≤ 'f' then c.toNat - 'a'.toNat + 10
  else c.toNat - 'A'.toNat + 10

/-- Strip the optional leading sign, returning the sign and the rest
(step of the ECMAScript `parseInt` algorithm). -/
def stripSign (s : JStr) : Int × JStr :=
  match s with
  | '+' :: r => (1, r)
  | '-' :: r => (-1, r)
  | _ => (1, s)

/-- Detect the `0x`/`0X` tag, returning the active radix and the rest
(step of the ECMAScript `parseInt` algorithm with no radix argument). -/
def splitRadix (s : JStr) : Nat × JStr :=
  match s with
  | '0' :: 'x' :: r => (16, r)
  | '0' :: 'X' :: r => (16, r)
  | _ => (10, s)

/-- Whether `c` is a hexadecimal digit. -/
def isHexDigitChar (c : Char) : Bool :=
  c.isDigit || ('a' ≤ c && c ≤ 'f') || ('A' ≤ c && c ≤ 'F')

/-- Whether `c` is a digit of the active radix. -/
def isRadixDigit (radix : Nat) (c : Char) : Bool :=
  if radix = 16 then isHexDigitChar c else c.isDigit

/-- `parseInt(s)` with no radix argument (ECMAScript semantics as used
at src/bot.js line 487): skip whitespace, read an optional sign, switch
to hexadecimal under a `0x`/`0X` tag, consume the longest run of digits
of the active radix; `none` models `NaN`. -/
def jsParseInt (s : JStr) : Option Int :=
  let s0 := s.dropWhile Char.isWhitespace
  let sg := stripSign s0
  let rs := splitRadix sg.2
  let digits := rs.2.takeWhile (isRadixDigit rs.1)
  if digits = [] then none
  else some (sg.1 * Int.ofNat (digits.foldl (fun a c => a * rs.1 + digitVal c) 0))

/-- `parseInt(ctx.message.text.trim())` in the loan-id reply handler
(src/bot.js line 487). -/
def parsedLoanId (t : JStr) : Option Int :=
  jsParseInt (jsTrim t)

/-- Whether the `Invalid loan ID. Please enter a number.` branch is
taken (`isNaN(loanId)`, src/bot.js line 488). -/
def invalidLoanIdBranch (t : JStr) : Bool :=
  (parsedLoanId t).isNone

/-- The claim's predicate: the trimmed text begins with a decimal
digit. -/
def hasLeadingDecDigit (s : JStr) : Bool :=
  match s with
  | [] => false
  | c :: _ => c.isDigit

/-- Syntactic characterization of `parseInt` failure: after whitespace,
an optional sign and the `0x`/`0X` tag, no digit of the active radix
follows. -/
def parseIntFailCond (s : JStr) : Bool :=
  let s0 := s.dropWhile Char.isWhitespace
  let rs := splitRadix (stripSign s0).2
  match rs.2 with
  | [] => true
  | c :: _ => !(isRadixDigit rs.1 c)

/-- Concrete scratch record used to exercise the password step. -/
def sdEx : SignInData := ⟨"a@b.c".data, 7, "$2b$h".data, "customer".data⟩

/-- Session sitting in the password step with `sdEx` pending. -/
def sessEx : Session := ⟨none, none, none, none, none, some sdEx⟩

/-- Session in the password step with a pending admin sign-in. -/
def sessAdminEx : Session :=
  ⟨none, none, none, none, none, some ⟨"a@b.c".data, 7, "$2b$h".data, "admin".data⟩⟩

/-- An authenticated customer session (role already cached). -/
def sessCust : Session := ⟨some 1, some "customer".data, some 4, none, none, none⟩

/-! ## Helper lemmas -/

theorem mem_of_mem_jsTrim {c : Char} {s : JStr} (h : c ∈ jsTrim s) : c ∈ s := by
  unfold jsTrim at h
  rw [List.mem_reverse] at h
  have h2 := List.dropWhile_subset Char.isWhitespace h
  rw [List.mem_reverse] at h2
  exact List.dropWhile_subset Char.isWhitespace h2

theorem at_mem_jsLower {s : JStr} (h : '@' ∈ s) : '@' ∈ jsLower s := by
  have h2 := List.mem_map_of_mem Char.toLower h
  have h3 : Char.toLower '@' = '@' := by decide
  rw [h3] at h2
  exact h2

theorem no_at_of_jsLower_eq {s w : JStr} (h : jsLower s = w) (hw : '@' ∉ w) :
    '@' ∉ s := fun hm => hw (h ▸ at_mem_jsLower hm)

theorem normalizeHash_y (rest : JStr) :
    normalizeHash ("$2y$".data ++ rest) = "$2b$".data ++ rest := by
  show normalizeHash ('$' :: '2' :: 'y' :: '$' :: rest) = '$' :: '2' :: 'b' :: '$' :: rest
  unfold normalizeHash
  rw [if_pos (show List.take 4 ('$' :: '2' :: 'y' :: '$' :: rest) = "$2y$".data from rfl)]
  rfl

theorem normalizeHash_b (rest : JStr) :
    normalizeHash ("$2b$".data ++ rest) = "$2b$".data ++ rest := by
  show normalizeHash ('$' :: '2' :: 'b' :: '$' :: rest) = '$' :: '2' :: 'b' :: '$' :: rest
  unfold normalizeHash
  rw [if_neg]
  intro h
  have h2 := congrArg (fun l => l.get? 2) h
  simp at h2

/-! ## Claim theorems -/

/-- Claim C8 (refuting theorem): with the wizard in progress at the
password step, the first `/stop` is consumed by the scene step and
replies `Process cancelled.`, while the second `/stop` (no scene left)
reaches `bot.command('stop')` and replies `Operation cancelled.` — the
two invocations do not yield the same cancelled reply text. -/
theorem stop_twice_counterexample :
    (dispatchStop (fun _ => Lookup.notFound) (fun _ _ => Except.ok true)
        (fun _ => Lookup.notFound) (fun _ => Lookup.notFound)
        ⟨some SceneCursor.passwordStep, sessEx⟩).2 = ["Process cancelled."] ∧
    (dispatchStop (fun _ => Lookup.notFound) (fun _ _ => Except.ok true)
        (fun _ => Lookup.notFound) (fun _ => Lookup.notFound)
        (dispatchStop (fun _ => Lookup.notFound) (fun _ _ => Except.ok true)
          (fun _ => Lookup.notFound) (fun _ => Lookup.notFound)
          ⟨some SceneCursor.passwordStep, sessEx⟩).1).2 = ["Operation cancelled."] ∧
    ("Process cancelled." ≠ "Operation cancelled.") := by
  refine ⟨by decide, by decide, by decide⟩

/-- Claim C8 (amended): issuing `/stop` twice in a row is safe: each
invocation ends with no scene active and `signInData` cleared, and the
second invocation causes no state change at all; when no wizard was in
progress both invocations reply `Operation cancelled.` identically, but
with a wizard in progress the first reply is the scene step's
`Process cancelled.` and only the second is `Operation cancelled.`. -/
theorem stop_twice_amended (byEmail : JStr → Lookup Cred)
    (bc : JStr → JStr → Except Unit Bool) (cust lend : Nat → Lookup LinkedRec)
    (st : ChatState) :
    (dispatchStop byEmail bc cust lend st).1
      = ⟨none, { st.sess with signInData := none }⟩ ∧
    dispatchStop byEmail bc cust lend (dispatchStop byEmail bc cust lend st).1
      = ((dispatchStop byEmail bc cust lend st).1, ["Operation cancelled."]) ∧
    (dispatchStop byEmail bc cust lend st).2
      = (if st.scene = none then ["Operation cancelled."]
         else ["Process cancelled."]) := by
  have hlow : jsLower "/stop".data = "/stop".data := by decide
  cases hsc : st.scene with
  | none =>
    refine ⟨?_, ?_, ?_⟩ <;> simp [dispatchStop, hsc, stopCmd]
  | some c =>
    cases c with
    | emailStep =>
      refine ⟨?_, ?_, ?_⟩ <;>
        simp [dispatchStop, hsc, signInStep1, hlow, cursorOf, stopCmd]
    | passwordStep =>
      refine ⟨?_, ?_, ?_⟩ <;>
        simp [dispatchStop, hsc, signInStep2Bot, hlow, cursorOf, stopCmd]

/-- Claim C1 (refuting theorem): a thrown fault while talking to the
Credential Store during password verification (here the linked-entity
lookup of the `customer` role, resp. of the webhook variant) is a
terminal transition of the wizard that leaves `signInData` populated:
the `catch` blocks at src/bot.js lines 244-248 and
src/unnamed/part_000 lines 272-277 never clear it. -/
theorem fault_leaves_signInData_populated :
    ((signInStep2Bot (fun _ _ => Except.ok true) (fun _ => Lookup.fault)
        (fun _ => Lookup.notFound) (some "pw".data) sessEx).state = WizState.idle ∧
     (signInStep2Bot (fun _ _ => Except.ok true) (fun _ => Lookup.fault)
        (fun _ => Lookup.notFound) (some "pw".data) sessEx).session.signInData
       = some sdEx) ∧
    ((signInStep2Web true (fun _ _ => Except.ok true) (fun _ => Lookup.fault)
        (fun _ => Lookup.notFound) (fun _ => Lookup.notFound)
        (some "pw".data) sessEx).state = WizState.idle ∧
     (signInStep2Web true (fun _ _ => Except.ok true) (fun _ => Lookup.fault)
        (fun _ => Lookup.notFound) (fun _ => Lookup.notFound)
        (some "pw".data) sessEx).session.signInData = some sdEx) := by
  decide

/-- Claim C5: at every wizard step the `/stop` directive is honoured
before any other parsing: for any inbound text whose lower-casing is
`/stop`, each step returns to `IDLE` with `signInData` cleared and only
the cancellation reply, independently of the credential store, of
bcrypt and of the delete permission — in particular no password
comparison and no delete attempt happens. -/
theorem stop_checked_first (byEmail : JStr → Lookup Cred)
    (bc : JStr → JStr → Except Unit Bool) (cust lend : Nat → Lookup LinkedRec)
    (adm : Nat → Lookup JStr) (dp : Bool) (t : JStr) (sess : Session)
    (h : jsLower t = "/stop".data) :
    signInStep1 byEmail (some t) sess
      = ⟨.idle, { sess with signInData := none }, ["Process cancelled."]⟩ ∧
    signInStep2Bot bc cust lend (some t) sess
      = ⟨.idle, { sess with signInData := none }, ["Process cancelled."],
         false, false, false⟩ ∧
    signInStep2Web dp bc cust lend adm (some t) sess
      = ⟨.idle, { sess with signInData := none }, ["Process cancelled."],
         false, false, false⟩ := by
  refine ⟨?_, ?_, ?_⟩ <;> simp [signInStep1, signInStep2Bot, signInStep2Web, h]

/-- Witness for C5: a cancel sent in upper case during `AWAIT_PASSWORD`
cancels the wizard and clears the pending data. -/
theorem stop_checked_first_witness :
    jsLower "/STOP".data = "/stop".data ∧
    signInStep2Bot (fun _ _ => Except.ok true) (fun _ => Lookup.notFound)
        (fun _ => Lookup.notFound) (some "/STOP".data) sessEx
      = ⟨.idle, { sessEx with signInData := none }, ["Process cancelled."],
         false, false, false⟩ :=
  ⟨by decide,
   (stop_checked_first (fun _ => Lookup.notFound) (fun _ _ => Except.ok true)
      (fun _ => Lookup.notFound) (fun _ => Lookup.notFound) (fun _ => Lookup.notFound)
      true "/STOP".data sessEx (by decide)).2.1⟩

/-- Claim C10 (refuting theorem): the `Invalid loan ID` branch is not
taken exactly when the trimmed text has no leading decimal digit:
`-7` has no leading digit yet is accepted, and `0x` begins with the
digit `0` yet takes the error branch. -/
theorem loanId_parse_counterexample :
    (hasLeadingDecDigit (jsTrim "-7".data) = false ∧
     invalidLoanIdBranch "-7".data = false ∧ parsedLoanId "-7".data = some (-7)) ∧
    (hasLeadingDecDigit (jsTrim "0x".data) = true ∧
     invalidLoanIdBranch "0x".data = true) := by
  decide

/-- Claim C10 (amended): the error branch is taken exactly when, after
the optional leading sign and the `0x`/`0X` hexadecimal tag, the
trimmed text does not continue with a digit of the active radix; any
parsable text keeps only its leading digit run, trailing characters
ignored. -/
theorem invalidLoanIdBranch_characterization (t : JStr) :
    invalidLoanIdBranch t = parseIntFailCond (jsTrim t) := by
  unfold invalidLoanIdBranch parsedLoanId jsParseInt parseIntFailCond
  dsimp only
  cases hrest : (splitRadix (stripSign ((jsTrim t).dropWhile Char.isWhitespace)).2).2 with
  | nil => simp [hrest]
  | cons c r =>
    by_cases hc : isRadixDigit (splitRadix (stripSign ((jsTrim t).dropWhile Char.isWhitespace)).2).1 c
    · simp [hc, List.takeWhile_cons]
    · simp [hc, List.takeWhile_cons]

/-- Exactness of the accepted side of C10: `12abc` is accepted and the
decimal digit-run yields the loan id. -/
theorem parsedLoanId_keeps_digit_run : parsedLoanId "12abc".data = some 12 := by
  decide

/-- Claim C4: the password comparison normalizes a leading `$2y$` tag to
`$2b$` before comparing, so a `$2y$`-prefixed stored hash and the
corresponding `$2b$`-prefixed hash verify identically for every
password and every external compare; and on a mismatch the user is
informed, `signInData` is cleared and the wizard is left
unauthenticated (the session is otherwise untouched). -/
theorem password_compare_normalizes_tag :
    (∀ (cmp : JStr → JStr → Bool) (pw rest : JStr),
        verifyPassword cmp pw ("$2y$".data ++ rest)
          = verifyPassword cmp pw ("$2b$".data ++ rest)) ∧
    (∀ (bc : JStr → JStr → Except Unit Bool) (cust lend : Nat → Lookup LinkedRec)
        (t : JStr) (sess : Session) (sd : SignInData),
        sess.signInData = some sd →
        jsLower t ≠ "/stop".data →
        sd.userId ≠ 0 → sd.hashedPassword ≠ [] →
        bc (jsTrim t) (normalizeHash sd.hashedPassword) = Except.ok false →
        signInStep2Bot bc cust lend (some t) sess
          = ⟨.idle, { sess with signInData := none },
             [privacyWarning, "Invalid password. Use /signin to try again."],
             true, false, true⟩) := by
  constructor
  · intro cmp pw rest
    unfold verifyPassword
    rw [normalizeHash_y, normalizeHash_b]
  · intro bc cust lend t sess sd h1 h2 h3 h4 h5
    simp [signInStep2Bot, h1, h2, h3, h4, h5]

/-- Witness for C4: a wrong password against `sdEx` is rejected with the
invalid-password reply, `signInData` cleared, wizard left. -/
theorem password_compare_normalizes_tag_witness :
    signInStep2Bot (fun _ _ => Except.ok false) (fun _ => Lookup.notFound)
        (fun _ => Lookup.notFound) (some "pw".data) sessEx
      = ⟨.idle, { sessEx with signInData := none },
         [privacyWarning, "Invalid password. Use /signin to try again."],
         true, false, true⟩ :=
  password_compare_normalizes_tag.2 (fun _ _ => Except.ok false)
    (fun _ => Lookup.notFound) (fun _ => Lookup.notFound) "pw".data sessEx sdEx
    rfl (by decide) (by decide) (by decide) rfl

/-- Claim C2: for every named action and session the command router
yields exactly one of the three outcomes; when the outcome is
`Unauthorized` no Domain Query Service call is made; and an
authenticated `customer` session invoking an action whose permitted
set is `admin`-only is `Unauthorized` with zero Domain Query Service
calls (and zero credential lookups). -/
theorem router_trichotomy_unauthorized_no_queries
    (roleById : Nat → Option JStr) (hdc : Action → Nat) (a : Action) (sess : Session) :
    ((routeCommand roleById hdc a sess).outcome = Outcome.unauthenticated ∨
     (routeCommand roleById hdc a sess).outcome = Outcome.unauthorized ∨
     (routeCommand roleById hdc a sess).outcome = Outcome.dispatch) ∧
    ((routeCommand roleById hdc a sess).outcome = Outcome.unauthorized →
      (routeCommand roleById hdc a sess).domainCalls = 0) ∧
    (∀ uid, sess.userId = some uid → sess.role = some "customer".data →
      cmdAllowedRoles a = some ["admin".data] →
      (routeCommand roleById hdc a sess).outcome = Outcome.unauthorized ∧
      (routeCommand roleById hdc a sess).domainCalls = 0 ∧
      (routeCommand roleById hdc a sess).credCalls = 0) ∧
    ((routeCallbackRes hdc a sess).outcome = Outcome.unauthenticated ∨
     (routeCallbackRes hdc a sess).outcome = Outcome.unauthorized ∨
     (routeCallbackRes hdc a sess).outcome = Outcome.dispatch) ∧
    ((routeCallbackRes hdc a sess).outcome = Outcome.unauthorized →
      (routeCallbackRes hdc a sess).domainCalls = 0) ∧
    (∀ uid, sess.userId = some uid → sess.role = some "customer".data →
      actionRoles a = ["admin".data] →
      (routeCallbackRes hdc a sess).outcome = Outcome.unauthorized ∧
      (routeCallbackRes hdc a sess).domainCalls = 0) := by
  refine ⟨?_, ?_, ?_, ?_, ?_, ?_⟩
  · unfold routeCommand
    cases cmdAllowedRoles a with
    | none => simp
    | some allowed =>
      by_cases h1 : (checkAuth roleById sess).ok = false
      · simp [h1]
      · by_cases h2 : restrictRole (checkAuth roleById sess).session allowed = false
        · simp [h1, h2]
        · simp [h1, h2]
  · unfold routeCommand
    cases cmdAllowedRoles a with
    | none => intro h; simp at h
    | some allowed =>
      by_cases h1 : (checkAuth roleById sess).ok = false
      · intro h; simp [h1] at h
      · by_cases h2 : restrictRole (checkAuth roleById sess).session allowed = false
        · intro _; simp [h1, h2]
        · intro h; simp [h1, h2] at h
  · intro uid h1 h2 h3
    have hca : checkAuth roleById sess = ⟨true, sess, 0, []⟩ := by
      simp [checkAuth, h1, roleCached, h2]
    have hrr : restrictRole sess ["admin".data] = false := by
      simp [restrictRole, h2]
    simp [routeCommand, h3, hca, hrr]
  · unfold routeCallbackRes
    by_cases h1 : sess.userId = none
    · simp [h1]
    · by_cases h2 : restrictRole sess (actionRoles a) = false
      · simp [h1, h2]
      · simp [h1, h2]
  · unfold routeCallbackRes
    by_cases h1 : sess.userId = none
    · intro h; simp [h1] at h
    · by_cases h2 : restrictRole sess (actionRoles a) = false
      · intro _; simp [h1, h2]
      · intro h; simp [h1, h2] at h
  · intro uid h1 h2 h3
    have hrr : restrictRole sess (actionRoles a) = false := by
      rw [h3]
      simp [restrictRole, h2]
    simp [routeCallbackRes, h1, hrr]

/-- Witness for C2: the cached-role customer session `sessCust` invoking
the admin-only `list_users` action is rejected as unauthorized with no
queries at all, on both entry surfaces. -/
theorem router_trichotomy_witness :
    ((routeCommand (fun _ => none) (fun _ => 5) Action.listUsers sessCust).outcome
      = Outcome.unauthorized ∧
     (routeCommand (fun _ => none) (fun _ => 5) Action.listUsers sessCust).domainCalls = 0 ∧
     (routeCommand (fun _ => none) (fun _ => 5) Action.listUsers sessCust).credCalls = 0) ∧
    ((routeCallbackRes (fun _ => 5) Action.listUsers sessCust).outcome
      = Outcome.unauthorized ∧
     (routeCallbackRes (fun _ => 5) Action.listUsers sessCust).domainCalls = 0) :=
  ⟨(router_trichotomy_unauthorized_no_queries (fun _ => none) (fun _ => 5)
      Action.listUsers sessCust).2.2.1 1 rfl rfl rfl,
   (router_trichotomy_unauthorized_no_queries (fun _ => none) (fun _ => 5)
      Action.listUsers sessCust).2.2.2.2.2 1 rfl rfl rfl⟩

/-- Claim C3 (refuting theorem): the `/help` command applies no role
gate at all while the `help` button requires a signed-in session, so
for an unauthenticated session the two entry surfaces compute different
authorization decisions for the same action name. -/
theorem surface_parity_counterexample :
    (routeCommand (fun _ => none) (fun _ => 0) Action.help emptySession).outcome
      = Outcome.dispatch ∧
    routeCallback Action.help emptySession = Outcome.unauthenticated := by
  decide

theorem cmdAllowedRoles_eq_actionRoles (a : Action) (h : a ≠ Action.help) :
    cmdAllowedRoles a = some (actionRoles a) := by
  cases a <;> first | rfl | exact absurd rfl h

/-- Claim C3 (amended): for the eight role-gated actions (every action
except `help`) and every session that is unauthenticated or already has
a truthy cached role, the command surface and the button-press surface
compute the identical authorization decision; the surfaces can differ
for `help` and for sessions whose role is not yet cached. -/
theorem surface_parity_amended (roleById : Nat → Option JStr) (hdc : Action → Nat)
    (a : Action) (sess : Session) (ha : a ≠ Action.help)
    (hc : sess.userId = none ∨ roleCached sess = true) :
    (routeCommand roleById hdc a sess).outcome = routeCallback a sess := by
  rw [routeCommand, cmdAllowedRoles_eq_actionRoles a ha]
  cases huid : sess.userId with
  | none => simp [checkAuth, huid, routeCallback]
  | some uid =>
    have hrc : roleCached sess = true := by
      cases hc with
      | inl h => rw [h] at huid; exact absurd huid (by simp)
      | inr h => exact h
    by_cases hr : restrictRole sess (actionRoles a) = false
    · simp [checkAuth, huid, hrc, routeCallback, hr]
    · simp [checkAuth, huid, hrc, routeCallback, hr]

/-- Witness for C3 (amended): for the gated `checkloan` action and the
cached-role customer session both surfaces dispatch. -/
theorem surface_parity_amended_witness :
    (routeCommand (fun _ => none) (fun _ => 0) Action.checkloan sessCust).outcome
      = routeCallback Action.checkloan sessCust :=
  surface_parity_amended (fun _ => none) (fun _ => 0) Action.checkloan sessCust
    (by decide) (Or.inr (by decide))

/-- Claim C7: for a session holding a `userId` but no cached role, the
first authorization check performs exactly one credential-store lookup
and caches the case-folded role string on the session, and a second
check on the resulting session performs zero lookups and returns the
identical decision and session; when the lookup returns no record the
outcome is unauthenticated even though a `userId` is present. -/
theorem checkAuth_caches_role (roleById : Nat → Option JStr) (sess : Session)
    (uid : Nat) (h1 : sess.userId = some uid) (h2 : sess.role = none) :
    (∀ r, roleById uid = some r → r ≠ [] →
      checkAuth roleById sess
        = ⟨true, { sess with role := some (jsLower r) }, 1, []⟩ ∧
      checkAuth roleById { sess with role := some (jsLower r) }
        = ⟨true, { sess with role := some (jsLower r) }, 0, []⟩) ∧
    (roleById uid = none →
      checkAuth roleById sess
        = ⟨false, sess, 1, ["User account not found. Please contact support."]⟩) := by
  constructor
  · intro r hr hne
    have hl : jsLower r ≠ [] := by
      unfold jsLower
      simp [hne]
    constructor
    · simp [checkAuth, h1, roleCached, h2, hr]
    · simp [checkAuth, h1, roleCached, hl]
  · intro hr
    simp [checkAuth, h1, roleCached, h2, hr]

/-- Witness for C7: a session with `userId = 3` and no cached role
resolves `Customer` once, caches `customer`, and the second check is a
pure cache hit. -/
theorem checkAuth_caches_role_witness :
    checkAuth (fun _ => some "Customer".data) ⟨some 3, none, none, none, none, none⟩
      = ⟨true, ⟨some 3, some "customer".data, none, none, none, none⟩, 1, []⟩ ∧
    checkAuth (fun _ => some "Customer".data)
        ⟨some 3, some "customer".data, none, none, none, none⟩
      = ⟨true, ⟨some 3, some "customer".data, none, none, none, none⟩, 0, []⟩ :=
  (checkAuth_caches_role (fun _ => some "Customer".data)
    ⟨some 3, none, none, none, none, none⟩ 3 rfl rfl).1 "Customer".data rfl (by decide)

/-- Claim C9 (refuting theorem): in the bot.js variant the sign-in
completes (here for the pending admin record: the wizard is left with
`userId` set) yet no delete-message attempt is ever made and the
privacy warning is emitted even though deletion was never denied. -/
theorem bot_never_attempts_delete :
    (signInStep2Bot (fun _ _ => Except.ok true) (fun _ => Lookup.notFound)
        (fun _ => Lookup.notFound) (some "pw".data) sessAdminEx).delAttempted = false ∧
    (signInStep2Bot (fun _ _ => Except.ok true) (fun _ => Lookup.notFound)
        (fun _ => Lookup.notFound) (some "pw".data) sessAdminEx).warned = true ∧
    (signInStep2Bot (fun _ _ => Except.ok true) (fun _ => Lookup.notFound)
        (fun _ => Lookup.notFound) (some "pw".data) sessAdminEx).session.userId
      = some 7 ∧
    (signInStep2Bot (fun _ _ => Except.ok true) (fun _ => Lookup.notFound)
        (fun _ => Lookup.notFound) (some "pw".data) sessAdminEx).state
      = WizState.idle := by
  decide

/-- Claim C9 (amended): in the webhook variant every password-step
message (other than a cancel) triggers the delete-message attempt, the
privacy warning is emitted exactly when deletion is not permitted, and
the permission bit changes nothing else: resulting state, session and
comparison behaviour are identical, so a failing delete never prevents
the authentication transition. -/
theorem web_delete_attempt_best_effort (bc : JStr → JStr → Except Unit Bool)
    (cust lend : Nat → Lookup LinkedRec) (adm : Nat → Lookup JStr)
    (t : JStr) (sess : Session) (h : jsLower t ≠ "/stop".data) :
    (signInStep2Web true bc cust lend adm (some t) sess).delAttempted = true ∧
    (signInStep2Web false bc cust lend adm (some t) sess).delAttempted = true ∧
    (signInStep2Web true bc cust lend adm (some t) sess).warned = false ∧
    (signInStep2Web false bc cust lend adm (some t) sess).warned = true ∧
    (signInStep2Web true bc cust lend adm (some t) sess).state
      = (signInStep2Web false bc cust lend adm (some t) sess).state ∧
    (signInStep2Web true bc cust lend adm (some t) sess).session
      = (signInStep2Web false bc cust lend adm (some t) sess).session ∧
    (signInStep2Web true bc cust lend adm (some t) sess).compared
      = (signInStep2Web false bc cust lend adm (some t) sess).compared := by
  cases hsd : sess.signInData with
  | none => simp [signInStep2Web, h, hsd]
  | some sd =>
    by_cases hex : sd.userId = 0 ∨ sd.hashedPassword = []
    · simp [signInStep2Web, h, hsd, hex]
    · cases hb : bc (jsTrim t) (normalizeHash sd.hashedPassword) with
      | error e => simp [signInStep2Web, h, hsd, hex, hb]
      | ok v =>
        by_cases hv : v = false
        · simp [signInStep2Web, h, hsd, hex, hb, hv]
        · rcases hfin : finishSignIn cust lend (some adm) sd sess with ⟨st, s, rs⟩
          simp [signInStep2Web, h, hsd, hex, hb, hv, hfin]

/-- Witness for C9 (amended): on a plain password message the webhook
variant attempts the deletion, and warns exactly when it failed. -/
theorem web_delete_attempt_witness :
    (signInStep2Web true (fun _ _ => Except.ok true) (fun _ => Lookup.notFound)
        (fun _ => Lookup.notFound) (fun _ => Lookup.notFound)
        (some "pw".data) sessEx).delAttempted = true ∧
    (signInStep2Web true (fun _ _ => Except.ok true) (fun _ => Lookup.notFound)
        (fun _ => Lookup.notFound) (fun _ => Lookup.notFound)
        (some "pw".data) sessEx).warned = false := by
  have h := web_delete_attempt_best_effort (fun _ _ => Except.ok true)
    (fun _ => Lookup.notFound) (fun _ => Lookup.notFound) (fun _ => Lookup.notFound)
    "pw".data sessEx (by decide)
  exact ⟨h.1, h.2.2.1⟩

/-- Claim C6: the email step enters `AWAIT_PASSWORD` exactly when the
trimmed text contains both `@` and `.` and the credential store has a
matching record whose stored hash carries the recognized `$2` tag; in
every other case it stays in `AWAIT_EMAIL` or leaves to `IDLE`, and it
never touches the session's authentication fields, so a rejected input
leaves the session unauthenticated. -/
theorem email_step_characterization (byEmail : JStr → Lookup Cred) (t : JStr)
    (sess : Session) :
    ((signInStep1 byEmail (some t) sess).state = WizState.awaitPassword ↔
      ('@' ∈ jsTrim t ∧ '.' ∈ jsTrim t ∧
        ∃ cred, byEmail (jsTrim t) = Lookup.found cred ∧
          hasHashTag cred.password = true)) ∧
    (signInStep1 byEmail (some t) sess).session.userId = sess.userId ∧
    (signInStep1 byEmail (some t) sess).session.role = sess.role := by
  by_cases hstop : jsLower t = "/stop".data
  · have hat : '@' ∉ jsTrim t := fun hm =>
      (no_at_of_jsLower_eq hstop (by decide)) (mem_of_mem_jsTrim hm)
    refine ⟨?_, ?_, ?_⟩ <;> simp [signInStep1, hstop]
    intro h
    exact absurd h hat
  · by_cases hempty : jsTrim t = [] ∨ jsLower (jsTrim t) = "/signin".data
    · have hat : '@' ∉ jsTrim t := by
        cases hempty with
        | inl h => rw [h]; simp
        | inr h => exact no_at_of_jsLower_eq h (by decide)
      refine ⟨?_, ?_, ?_⟩ <;> simp [signInStep1, hstop, hempty]
      intro h
      exact absurd h hat
    · by_cases hfmt : '@' ∉ jsTrim t ∨ '.' ∉ jsTrim t
      · refine ⟨?_, ?_, ?_⟩ <;> simp [signInStep1, hstop, hempty, hfmt]
        intro hat hdot
        cases hfmt with
        | inl h => exact absurd hat h
        | inr h => exact absurd hdot h
      · push_neg at hfmt
        cases hbe : byEmail (jsTrim t) with
        | found cred =>
          cases hh : hasHashTag cred.password with
          | true =>
            refine ⟨?_, ?_, ?_⟩ <;>
              simp [signInStep1, hstop, hempty, hfmt, hbe, hh]
          | false =>
            refine ⟨?_, ?_, ?_⟩ <;>
              simp [signInStep1, hstop, hempty, hfmt, hbe, hh]
        | notFound =>
          refine ⟨?_, ?_, ?_⟩ <;> simp [signInStep1, hstop, hempty, hfmt, hbe]
        | fault =>
          refine ⟨?_, ?_, ?_⟩ <;> simp [signInStep1, hstop, hempty, hfmt, hbe]

/-- Witness for C6: a valid email with a matching `$2b$` record moves
the wizard to the password step. -/
theorem email_step_characterization_witness :
    (signInStep1
        (fun e => if e = "a@b.c".data
          then Lookup.found ⟨7, "$2b$h".data, "Customer".data⟩ else Lookup.notFound)
        (some "a@b.c".data) emptySession).state = WizState.awaitPassword :=
  (email_step_characterization
      (fun e => if e = "a@b.c".data
        then Lookup.found ⟨7, "$2b$h".data, "Customer".data⟩ else Lookup.notFound)
      "a@b.c".data emptySession).1.mpr
    ⟨by decide, by decide, ⟨7, "$2b$h".data, "Customer".data⟩, by decide, by decide⟩

end TelegramBot
